import Mathlib

/-!
Verification of the MapsyBe nearby-POI service.

Shallow embedding of the two source files:
* `src/getNearbyPoi.js` — `pointInPolygon`, `sortByCategory`, `getNearbyPlaces`;
* the server entry file — `roundCord`, the quota helpers
  `checkUniqueRequestLimit` / `incrementUniqueRequestCount`, and the
  `/nearby-places` route handler (two-tier cache, quota guard, lookup).

JavaScript numbers are modelled as exact rationals (`ℚ`), the Redis and
MongoDB stores as association lists / document lists with explicit expiry
timestamps, and the per-request external calls (Geoapify POI response,
Mapbox isochrone response, MongoDB availability) as oracle inputs.
-/

namespace Mapsy

/-! ## Geometry filter: `pointInPolygon` (src/getNearbyPoi.js lines 12–27) -/

/-- The `intersect` condition computed for one polygon edge:
`yi > y !== yj > y && x < ((xj - xi) * (y - yi)) / (yj - yi) + xi`. -/
def crossB (x y : ℚ) (pi pj : ℚ × ℚ) : Bool :=
  (decide (pi.2 > y) != decide (pj.2 > y)) &&
    decide (x < (pj.1 - pi.1) * (y - pi.2) / (pj.2 - pi.2) + pi.1)

/-- One iteration of the `for` loop: toggle `inside` when the edge crosses. -/
def pipStep (x y : ℚ) (pi pj : ℚ × ℚ) (inside : Bool) : Bool :=
  if crossB x y pi pj then !inside else inside

/-- Index of the previous vertex: the loop starts with `j = polygon.length - 1`
and thereafter keeps `j = i - 1`. -/
def jdx (n i : ℕ) : ℕ :=
  if i = 0 then n - 1 else i - 1

/-- `pointInPolygon(point, polygon)` from src/getNearbyPoi.js: even–odd
ray casting over the edges `(polygon[i], polygon[j])`. -/
def pointInPolygon (point : ℚ × ℚ) (polygon : List (ℚ × ℚ)) : Bool :=
  (List.range polygon.length).foldl
    (fun inside i =>
      pipStep point.1 point.2 (polygon.getD i (0, 0))
        (polygon.getD (jdx polygon.length i) (0, 0)) inside)
    false

/-- Number of edges whose crossing condition holds (the crossings of the
horizontal ray cast from the point). -/
def countCrossings (point : ℚ × ℚ) (polygon : List (ℚ × ℚ)) : ℕ :=
  (List.range polygon.length).countP
    (fun i =>
      crossB point.1 point.2 (polygon.getD i (0, 0))
        (polygon.getD (jdx polygon.length i) (0, 0)))

/-! ## Classifier: `sortByCategory` (src/getNearbyPoi.js lines 35–52) -/

/-- A point of interest: its coordinates (`geometry.coordinates`) and its
`properties.categories` tag list. -/
structure Poi where
  coords : ℚ × ℚ
  categories : List String
deriving DecidableEq

/-- The five output buckets of `sortedPOI`. -/
structure SortedPOI where
  supermarket : List Poi
  pharmacy : List Poi
  restaurant : List Poi
  fastfood : List Poi
  hotel : List Poi
deriving DecidableEq

/-- The empty bucket object initialised at the top of `getNearbyPlaces`. -/
def emptySorted : SortedPOI :=
  ⟨[], [], [], [], []⟩

/-- `poi.properties.categories.push(label)`: the POI after the canonical
label is appended to its categories list. -/
def withLabel (poi : Poi) (label : String) : Poi :=
  { poi with categories := poi.categories ++ [label] }

/-- `sortByCategory(poi, poiCategories, appendTo)`: first-match dispatch on
the raw category tags, appending the labelled POI to exactly one bucket. -/
def sortByCategory (poi : Poi) (poiCategories : List String) (appendTo : SortedPOI) :
    SortedPOI :=
  if poiCategories.contains "commercial.supermarket" then
    { appendTo with supermarket := appendTo.supermarket ++ [withLabel poi "supermarket"] }
  else if poiCategories.contains "healthcare.pharmacy" then
    { appendTo with pharmacy := appendTo.pharmacy ++ [withLabel poi "pharmacy"] }
  else if poiCategories.contains "catering.restaurant" then
    { appendTo with restaurant := appendTo.restaurant ++ [withLabel poi "restaurant"] }
  else if poiCategories.contains "catering.fast_food" then
    { appendTo with fastfood := appendTo.fastfood ++ [withLabel poi "fastfood"] }
  else if poiCategories.contains "accommodation.hotel" then
    { appendTo with hotel := appendTo.hotel ++ [withLabel poi "hotel"] }
  else
    appendTo

/-- Number of the five buckets whose contents differ between two bucket
objects. -/
def changedBuckets (a b : SortedPOI) : ℕ :=
  (if a.supermarket = b.supermarket then 0 else 1) +
  (if a.pharmacy = b.pharmacy then 0 else 1) +
  (if a.restaurant = b.restaurant then 0 else 1) +
  (if a.fastfood = b.fastfood then 0 else 1) +
  (if a.hotel = b.hotel then 0 else 1)

/-! ## Lookup orchestrator: `getNearbyPlaces` (src/getNearbyPoi.js lines 60–112)

The two upstream HTTP calls are oracle inputs: `GeoData` is the body of the
Geoapify places response, `IsoResult` the outcome of the Mapbox isochrone
call (`fail` covers a thrown request error as well as a malformed body). -/

/-- Body of the Geoapify `/v2/places` response: the optional `features`
array, and the optional truthy `error` field inspected later by the route
handler (`sortedPoi.error`). -/
structure GeoData where
  features : Option (List Poi)
  errorMsg : Option String
deriving DecidableEq

/-- Outcome of the Mapbox isochrone call: the extracted
`features[0].geometry.coordinates[0]` ring, or a caught exception. -/
inductive IsoResult where
  | ok (polygon : List (ℚ × ℚ))
  | fail (msg : String)
deriving DecidableEq

/-- The value returned by `getNearbyPlaces`: the provider body verbatim
(no feature list), the isochrone error object `{ error: ... }`, or the
categorized buckets. -/
inductive LookupResult where
  | verbatim (d : GeoData)
  | isoError (msg : String)
  | success (s : SortedPOI)
deriving DecidableEq

/-- `getNearbyPlaces(lat, lon)` with the two provider responses given as
oracles: return the POI body verbatim when it has no `features`; return a
`{ error }` object when the isochrone call fails; otherwise filter the
features through `pointInPolygon` and classify them. -/
def getNearbyPlaces (geo : GeoData) (iso : IsoResult) : LookupResult :=
  match geo.features with
  | none => .verbatim geo
  | some feats =>
    match iso with
    | .fail msg => .isoError ("Error getting mb isochrone:" ++ msg)
    | .ok polygon =>
      let filteredPOI := feats.filter (fun poi => pointInPolygon poi.coords polygon)
      .success (filteredPOI.foldl
        (fun acc poi => sortByCategory poi poi.categories acc) emptySorted)

/-- `sortedPoi.error` truthiness: which field the route handler reads when
deciding between the 500 `API_ERROR` response and the success envelope. -/
def lookupErr : LookupResult → Option String
  | .verbatim d => d.errorMsg
  | .isoError msg => some msg
  | .success _ => none

/-! ## Server state (the `/nearby-places` route in the entry file)

Association-list helpers standing for single-key Redis reads and writes. -/

/-- First value bound to a key in an association list (Redis `GET`,
ignoring expiry). -/
def alookup {α β : Type} [DecidableEq α] : List (α × β) → α → Option β
  | [], _ => none
  | (k, v) :: rest, a => if a = k then some v else alookup rest a

/-- Bind a key to a value, replacing any previous binding (Redis `SET`). -/
def aset {α β : Type} [DecidableEq α] : List (α × β) → α → β → List (α × β)
  | [], a, b => [(a, b)]
  | (k, v) :: rest, a, b => if a = k then (a, b) :: rest else (k, v) :: aset rest a b

/-- `roundCord(coord, precision)`: round to `precision` decimal places
(`parseFloat(coord.toFixed(precision))`; `toFixed` rounds to the nearest
multiple of `10 ^ -precision`, ties away from the smaller value). -/
def roundCord (coord : ℚ) (precision : ℕ) : ℚ :=
  (round (coord * 10 ^ precision) : ℤ) / 10 ^ precision

/-- The quantized cache key `nearby-${roundedLat}-${roundedLon}`. -/
def keyOf (lat lon : ℚ) : ℚ × ℚ :=
  (roundCord lat 3, roundCord lon 3)

/-- The per-IP quota counter stored under `unique-requests-${ip}`, with its
absolute expiry time (seconds). -/
structure QuotaEntry where
  count : ℕ
  expiresAt : ℕ
deriving DecidableEq

/-- The success envelope `{ forCoordinates, requestedBy, POIbyCategory }`. -/
structure Envelope where
  forCoordinates : ℚ × ℚ
  requestedBy : String
  poiByCategory : LookupResult
deriving DecidableEq

/-- A document of the `savedPlaces` collection: the envelope spread plus
`generalCoordinates`, `createdAt` and `expiresAt`. -/
structure MongoDoc where
  data : Envelope
  generalCoordinates : ℚ × ℚ
  createdAt : ℕ
  expiresAt : ℕ
deriving DecidableEq

/-- A value cached in Redis under a `nearby-` key: either a fresh envelope
or a promoted MongoDB document. -/
inductive CachedVal where
  | env (e : Envelope)
  | doc (d : MongoDoc)
deriving DecidableEq

/-- The shared mutable state: the Redis `nearby-` entries (with absolute
expiry), the per-IP quota counters and the MongoDB `savedPlaces` list. -/
structure ServerState where
  redis : List ((ℚ × ℚ) × (CachedVal × ℕ))
  quota : List (String × QuotaEntry)
  mongo : List MongoDoc
deriving DecidableEq

/-- Per-request oracle: whether the MongoDB cache check and save succeed,
and the two provider responses consumed by `getNearbyPlaces`. -/
structure Oracle where
  mongoReadOk : Bool
  mongoWriteOk : Bool
  geo : GeoData
  iso : IsoResult
deriving DecidableEq

/-- The JSON responses the route can produce: 200 with a cached or fresh
value, 429 `UNIQUE_REQUESTS_LIMIT_EXCEEDED`, 500 `API_ERROR`, or the
generic 500 `Internal server error` of the outer catch. -/
inductive Response where
  | ok (v : CachedVal)
  | quotaExceeded
  | apiError (msg : String)
  | internalError
deriving DecidableEq

/-- HTTP status of a response. -/
def statusOf : Response → ℕ
  | .ok _ => 200
  | .quotaExceeded => 429
  | .apiError _ => 500
  | .internalError => 500

/-- The `code` field of a response body. -/
def codeOf : Response → Option String
  | .ok _ => none
  | .quotaExceeded => some "UNIQUE_REQUESTS_LIMIT_EXCEEDED"
  | .apiError _ => some "API_ERROR"
  | .internalError => none

/-- Redis `GET` with expiry: an entry is visible only before its expiry
time. -/
def redisGet (r : List ((ℚ × ℚ) × (CachedVal × ℕ))) (k : ℚ × ℚ) (now : ℕ) :
    Option CachedVal :=
  match alookup r k with
  | some (v, exp) => if now < exp then some v else none
  | none => none

/-- Read of the quota counter, respecting its expiry. -/
def quotaGet (q : List (String × QuotaEntry)) (ip : String) (now : ℕ) :
    Option QuotaEntry :=
  match alookup q ip with
  | some e => if now < e.expiresAt then some e else none
  | none => none

/-- `checkUniqueRequestLimit(ip)`: deny only when a live counter is at or
above 5. -/
def checkUniqueRequestLimit (q : List (String × QuotaEntry)) (ip : String) (now : ℕ) :
    Bool :=
  match quotaGet q ip now with
  | some e => if e.count ≥ 5 then false else true
  | none => true

/-- `incrementUniqueRequestCount(ip)`: `INCR` an existing live counter
(keeping its expiry), else `SET` it to 1 with a one-hour expiry. -/
def incrementUniqueRequestCount (q : List (String × QuotaEntry)) (ip : String)
    (now : ℕ) : List (String × QuotaEntry) :=
  match quotaGet q ip now with
  | some e => aset q ip ⟨e.count + 1, e.expiresAt⟩
  | none => aset q ip ⟨1, now + 60 * 60⟩

/-- `findOne({ generalCoordinates: [roundedLat, roundedLon] })` on the
`savedPlaces` collection. -/
def mongoFind (m : List MongoDoc) (k : ℚ × ℚ) : Option MongoDoc :=
  m.find? (fun d => d.generalCoordinates = k)

/-- The cache-miss tail of the route: quota check, quota increment, fresh
lookup, `API_ERROR` short-circuit, then the Redis and MongoDB writes. -/
def freshPath (o : Oracle) (now : ℕ) (ip : String) (lat lon : ℚ) (key : ℚ × ℚ)
    (s : ServerState) : Response × ServerState :=
  if checkUniqueRequestLimit s.quota ip now then
    let s1 : ServerState := { s with quota := incrementUniqueRequestCount s.quota ip now }
    let sortedPoi := getNearbyPlaces o.geo o.iso
    match lookupErr sortedPoi with
    | some msg => (.apiError msg, s1)
    | none =>
      let env : Envelope := ⟨(lat, lon), ip, sortedPoi⟩
      let s2 : ServerState :=
        { s1 with redis := aset s1.redis key (.env env, now + 60 * 60 * 6) }
      let s3 : ServerState :=
        if o.mongoWriteOk then
          { s2 with mongo := s2.mongo ++ [⟨env, key, now, now + 4 * 24 * 60 * 60⟩] }
        else s2
      (.ok (.env env), s3)
  else
    (.quotaExceeded, s)

/-- The `/nearby-places` handler: quantize, Redis check, MongoDB check with
promotion (skipped entirely when the MongoDB client errors), then the
cache-miss tail. -/
def handleNearby (o : Oracle) (now : ℕ) (ip : String) (lat lon : ℚ)
    (s : ServerState) : Response × ServerState :=
  let key := keyOf lat lon
  match redisGet s.redis key now with
  | some v => (.ok v, s)
  | none =>
    match (if o.mongoReadOk then mongoFind s.mongo key else none) with
    | some mdbData =>
      (.ok (.doc mdbData),
        { s with redis := aset s.redis key (.doc mdbData, now + 60 * 60 * 6) })
    | none => freshPath o now ip lat lon key s

/-! ## Association-list lemmas -/

theorem alookup_aset_self {α β : Type} [DecidableEq α] (l : List (α × β)) (a : α)
    (b : β) : alookup (aset l a b) a = some b := by
  induction l with
  | nil => simp [alookup, aset]
  | cons hd tl ih =>
    obtain ⟨k, v⟩ := hd
    by_cases hk : a = k
    · simp [alookup, aset, hk]
    · simp [alookup, aset, hk, ih]

theorem alookup_aset_ne {α β : Type} [DecidableEq α] (l : List (α × β)) (a a' : α)
    (b : β) (h : a' ≠ a) : alookup (aset l a b) a' = alookup l a' := by
  induction l with
  | nil => simp [alookup, aset, h]
  | cons hd tl ih =>
    obtain ⟨k, v⟩ := hd
    by_cases hk : a = k
    · subst hk
      simp [alookup, aset, h]
    · by_cases hk' : a' = k
      · simp [alookup, aset, hk, hk']
      · simp [alookup, aset, hk, hk', ih]

theorem mongoFind_append_ne (m : List MongoDoc) (d : MongoDoc) (k : ℚ × ℚ)
    (h : d.generalCoordinates ≠ k) : mongoFind (m ++ [d]) k = mongoFind m k := by
  induction m with
  | nil => simp [mongoFind, List.find?, h]
  | cons hd tl ih =>
    simp only [mongoFind, List.cons_append, List.find?] at ih ⊢
    by_cases hh : hd.generalCoordinates = k
    · simp [hh]
    · simpa [hh] using ih

/-! ## Quota lemmas -/

theorem quotaGet_aset_self (q : List (String × QuotaEntry)) (ip : String)
    (e : QuotaEntry) (now : ℕ) (h : now < e.expiresAt) :
    quotaGet (aset q ip e) ip now = some e := by
  simp [quotaGet, alookup_aset_self, h]

theorem quotaGet_none_of_alookup_none (q : List (String × QuotaEntry)) (ip : String)
    (now : ℕ) (h : alookup q ip = none) : quotaGet q ip now = none := by
  simp [quotaGet, h]

theorem increment_fresh (q : List (String × QuotaEntry)) (ip : String) (now : ℕ)
    (h : quotaGet q ip now = none) :
    incrementUniqueRequestCount q ip now = aset q ip ⟨1, now + 60 * 60⟩ := by
  simp [incrementUniqueRequestCount, h]

theorem increment_existing (q : List (String × QuotaEntry)) (ip : String) (now : ℕ)
    (e : QuotaEntry) (h : quotaGet q ip now = some e) :
    incrementUniqueRequestCount q ip now = aset q ip ⟨e.count + 1, e.expiresAt⟩ := by
  simp [incrementUniqueRequestCount, h]

theorem check_allows_small (q : List (String × QuotaEntry)) (ip : String) (now : ℕ)
    (e : QuotaEntry) (h : quotaGet q ip now = some e) (hc : e.count < 5) :
    checkUniqueRequestLimit q ip now = true := by
  simp [checkUniqueRequestLimit, h, Nat.not_le.mpr hc]

theorem check_allows_none (q : List (String × QuotaEntry)) (ip : String) (now : ℕ)
    (h : quotaGet q ip now = none) : checkUniqueRequestLimit q ip now = true := by
  simp [checkUniqueRequestLimit, h]

theorem check_denies (q : List (String × QuotaEntry)) (ip : String) (now : ℕ)
    (e : QuotaEntry) (h : quotaGet q ip now = some e) (hc : 5 ≤ e.count) :
    checkUniqueRequestLimit q ip now = false := by
  simp [checkUniqueRequestLimit, h, hc]

/-! ## Redis lemmas -/

theorem redisGet_none_of_alookup_none (r : List ((ℚ × ℚ) × (CachedVal × ℕ)))
    (k : ℚ × ℚ) (now : ℕ) (h : alookup r k = none) : redisGet r k now = none := by
  simp [redisGet, h]

theorem redisGet_aset_self (r : List ((ℚ × ℚ) × (CachedVal × ℕ))) (k : ℚ × ℚ)
    (v : CachedVal) (e now : ℕ) (h : now < e) :
    redisGet (aset r k (v, e)) k now = some v := by
  simp [redisGet, alookup_aset_self, h]

theorem redisGet_aset_ne (r : List ((ℚ × ℚ) × (CachedVal × ℕ))) (k k' : ℚ × ℚ)
    (v : CachedVal) (e now : ℕ) (h : k' ≠ k) :
    redisGet (aset r k (v, e)) k' now = redisGet r k' now := by
  simp [redisGet, alookup_aset_ne _ _ _ _ h]

/-! ## Route-handler step lemmas -/

theorem handle_redis_hit (o : Oracle) (now : ℕ) (ip : String) (lat lon : ℚ)
    (s : ServerState) (v : CachedVal)
    (h : redisGet s.redis (keyOf lat lon) now = some v) :
    handleNearby o now ip lat lon s = (.ok v, s) := by
  simp [handleNearby, h]

theorem handle_mongo_hit (o : Oracle) (now : ℕ) (ip : String) (lat lon : ℚ)
    (s : ServerState) (d : MongoDoc)
    (hr : redisGet s.redis (keyOf lat lon) now = none)
    (ho : o.mongoReadOk = true)
    (hm : mongoFind s.mongo (keyOf lat lon) = some d) :
    handleNearby o now ip lat lon s =
      (.ok (.doc d),
        { s with redis := aset s.redis (keyOf lat lon) (.doc d, now + 60 * 60 * 6) }) := by
  simp [handleNearby, hr, ho, hm]

theorem handle_miss (o : Oracle) (now : ℕ) (ip : String) (lat lon : ℚ)
    (s : ServerState)
    (hr : redisGet s.redis (keyOf lat lon) now = none)
    (hm : (if o.mongoReadOk then mongoFind s.mongo (keyOf lat lon) else none) = none) :
    handleNearby o now ip lat lon s = freshPath o now ip lat lon (keyOf lat lon) s := by
  simp only [handleNearby, hr, hm]

theorem fresh_denied (o : Oracle) (now : ℕ) (ip : String) (lat lon : ℚ)
    (key : ℚ × ℚ) (s : ServerState)
    (hq : checkUniqueRequestLimit s.quota ip now = false) :
    freshPath o now ip lat lon key s = (.quotaExceeded, s) := by
  simp [freshPath, hq]

/-- Effects of an admitted cache-missing request: the quota counter is
incremented, the response is not the 429, and the Redis / MongoDB entries
of every other key are untouched. -/
theorem fresh_admitted_effects (o : Oracle) (now : ℕ) (ip : String) (lat lon : ℚ)
    (key : ℚ × ℚ) (s : ServerState)
    (hq : checkUniqueRequestLimit s.quota ip now = true) :
    (freshPath o now ip lat lon key s).2.quota =
        incrementUniqueRequestCount s.quota ip now ∧
      (freshPath o now ip lat lon key s).1 ≠ .quotaExceeded ∧
      (∀ k', k' ≠ key →
        alookup (freshPath o now ip lat lon key s).2.redis k' = alookup s.redis k') ∧
      (∀ k', k' ≠ key →
        mongoFind (freshPath o now ip lat lon key s).2.mongo k' =
          mongoFind s.mongo k') := by
  cases herr : lookupErr (getNearbyPlaces o.geo o.iso) with
  | some msg =>
    refine ⟨?_, ?_, ?_, ?_⟩ <;> simp [freshPath, hq, herr]
  | none =>
    refine ⟨?_, ?_, ?_, ?_⟩
    · cases hw : o.mongoWriteOk <;> simp [freshPath, hq, herr, hw]
    · cases hw : o.mongoWriteOk <;> simp [freshPath, hq, herr, hw]
    · intro k' hk
      cases hw : o.mongoWriteOk <;>
        simp [freshPath, hq, herr, hw, alookup_aset_ne _ _ _ _ hk]
    · intro k' hk
      cases hw : o.mongoWriteOk
      · simp [freshPath, hq, herr, hw]
      · simp [freshPath, hq, herr, hw]
        exact mongoFind_append_ne _ _ _ (Ne.symm hk)

/-! ## Geometry lemmas -/

theorem decide_mod_two_succ (n : ℕ) :
    decide ((n + 1) % 2 = 1) = ! decide (n % 2 = 1) := by
  rcases Nat.mod_two_eq_zero_or_one n with h | h <;> simp [Nat.add_mod, h]

/-- Toggling a flag once per satisfied element computes the parity of the
number of satisfied elements. -/
theorem foldl_toggle (f : ℕ → Bool) (l : List ℕ) (init : Bool) :
    l.foldl (fun inside i => if f i then !inside else inside) init =
      xor init (decide (l.countP f % 2 = 1)) := by
  induction l generalizing init with
  | nil => simp
  | cons a l ih =>
    rw [List.foldl_cons, ih]
    by_cases hfa : f a
    · rw [List.countP_cons]
      simp only [hfa, if_true, decide_mod_two_succ]
      cases init <;> cases hdec : decide (l.countP f % 2 = 1) <;> simp
    · rw [List.countP_cons]
      simp [hfa]

/-- `pointInPolygon` returns exactly the parity of the crossing count. -/
theorem pointInPolygon_parity (p : ℚ × ℚ) (poly : List (ℚ × ℚ)) :
    pointInPolygon p poly = decide (countCrossings p poly % 2 = 1) := by
  unfold pointInPolygon countCrossings
  simp only [pipStep]
  rw [foldl_toggle]
  simp

theorem crossB_false_of_above (x y : ℚ) (pi pj : ℚ × ℚ)
    (h1 : pi.2 ≤ y) (h2 : pj.2 ≤ y) : crossB x y pi pj = false := by
  simp [crossB, not_lt.mpr h1, not_lt.mpr h2]

theorem crossB_false_of_below (x y : ℚ) (pi pj : ℚ × ℚ)
    (h1 : y < pi.2) (h2 : y < pj.2) : crossB x y pi pj = false := by
  simp [crossB, h1, h2]

/-- When the edge straddles the ray, the interpolated abscissa lies between
the two endpoint abscissas. -/
theorem interp_bounds (y xi yi xj yj : ℚ)
    (h : (decide (yi > y) != decide (yj > y)) = true) :
    min xi xj ≤ (xj - xi) * (y - yi) / (yj - yi) + xi ∧
      (xj - xi) * (y - yi) / (yj - yi) + xi ≤ max xi xj := by
  have hstr : (y < yi ∧ yj ≤ y) ∨ (yi ≤ y ∧ y < yj) := by
    simp only [gt_iff_lt, bne_iff_ne, ne_eq, decide_eq_decide] at h
    rcases lt_or_le y yi with h1 | h1 <;> rcases lt_or_le y yj with h2 | h2
    · exact absurd (iff_of_true h1 h2) h
    · exact Or.inl ⟨h1, h2⟩
    · exact Or.inr ⟨h1, h2⟩
    · exact absurd (iff_of_false (not_lt.mpr h1) (not_lt.mpr h2)) h
  have ht : 0 ≤ (y - yi) / (yj - yi) ∧ (y - yi) / (yj - yi) ≤ 1 := by
    rcases hstr with ⟨h1, h2⟩ | ⟨h1, h2⟩
    · have hrw : (y - yi) / (yj - yi) = (yi - y) / (yi - yj) := by
        rw [show yi - y = -(y - yi) by ring, show yi - yj = -(yj - yi) by ring,
          neg_div_neg_eq]
      rw [hrw]
      constructor
      · exact le_of_lt (div_pos (by linarith) (by linarith))
      · rw [div_le_one (by linarith)]
        linarith
    · constructor
      · exact div_nonneg (by linarith) (by linarith)
      · rw [div_le_one (by linarith)]
        linarith
  obtain ⟨ht0, ht1⟩ := ht
  rw [mul_div_assoc]
  rcases le_total xi xj with hle | hle
  · rw [min_eq_left hle, max_eq_right hle]
    constructor <;> nlinarith
  · rw [min_eq_right hle, max_eq_left hle]
    constructor <;> nlinarith

theorem crossB_false_of_right (x y : ℚ) (pi pj : ℚ × ℚ)
    (h1 : pi.1 ≤ x) (h2 : pj.1 ≤ x) : crossB x y pi pj = false := by
  unfold crossB
  by_cases hstr : (decide (pi.2 > y) != decide (pj.2 > y)) = true
  · have hb := (interp_bounds y pi.1 pi.2 pj.1 pj.2 hstr).2
    have hx : ¬ x < (pj.1 - pi.1) * (y - pi.2) / (pj.2 - pi.2) + pi.1 := by
      have hmax : max pi.1 pj.1 ≤ x := max_le h1 h2
      linarith
    simp [hstr, hx]
  · simp only [Bool.not_eq_true] at hstr
    simp [hstr]

theorem crossB_eq_straddle_of_left (x y : ℚ) (pi pj : ℚ × ℚ)
    (h1 : x < pi.1) (h2 : x < pj.1) :
    crossB x y pi pj = (decide (pi.2 > y) != decide (pj.2 > y)) := by
  unfold crossB
  by_cases hstr : (decide (pi.2 > y) != decide (pj.2 > y)) = true
  · have hb := (interp_bounds y pi.1 pi.2 pj.1 pj.2 hstr).1
    have hx : x < (pj.1 - pi.1) * (y - pi.2) / (pj.2 - pi.2) + pi.1 := by
      have hmin : x < min pi.1 pj.1 := lt_min h1 h2
      linarith
    simp [hstr, hx]
  · simp only [Bool.not_eq_true] at hstr
    simp [hstr]

/-! ## Cyclic parity: the number of edges straddling a horizontal line is
even, because the predecessor map is a bijection of the index range. -/

/-- Inverse of `jdx` on `{0, …, n-1}`. -/
def gdx (n i : ℕ) : ℕ :=
  if i = n - 1 then 0 else i + 1

theorem countP_range_eq_sum (q : ℕ → Bool) (n : ℕ) :
    (List.range n).countP q = ∑ i in Finset.range n, (if q i then 1 else 0) := by
  induction n with
  | zero => simp
  | succ n ih =>
    rw [List.range_succ, List.countP_append, ih, Finset.sum_range_succ]
    simp [List.countP_cons]

theorem straddle_count_even (b : ℕ → Bool) (n : ℕ) :
    ((List.range n).countP (fun i => b i != b (jdx n i))) % 2 = 0 := by
  have hdvd : 2 ∣ (List.range n).countP (fun i => b i != b (jdx n i)) := by
    have hcast :
        (((List.range n).countP (fun i => b i != b (jdx n i)) : ℕ) : ZMod 2) = 0 := by
      rw [countP_range_eq_sum, Nat.cast_sum]
      have hterm : ∀ i,
          ((if (b i != b (jdx n i)) then (1 : ℕ) else 0 : ℕ) : ZMod 2) =
            (if b i then (1 : ZMod 2) else 0) +
              (if b (jdx n i) then (1 : ZMod 2) else 0) := by
        intro i
        cases hb : b i <;> cases hb' : b (jdx n i) <;> (simp [hb, hb']; try decide)
      rw [Finset.sum_congr rfl (fun i _ => hterm i), Finset.sum_add_distrib]
      have hre :
          ∑ i in Finset.range n, (if b (jdx n i) then (1 : ZMod 2) else 0) =
            ∑ i in Finset.range n, (if b i then (1 : ZMod 2) else 0) := by
        refine Finset.sum_nbij' (jdx n) (gdx n) ?_ ?_ ?_ ?_ ?_
        · intro a ha
          simp only [Finset.mem_range] at ha ⊢
          unfold jdx
          split <;> omega
        · intro a ha
          simp only [Finset.mem_range] at ha ⊢
          unfold gdx
          split <;> omega
        · intro a ha
          simp only [Finset.mem_range] at ha
          unfold jdx gdx
          split <;> split <;> omega
        · intro a ha
          simp only [Finset.mem_range] at ha
          unfold jdx gdx
          split <;> split <;> omega
        · intro a _
          rfl
      rw [hre, ← two_mul]
      have h2 : (2 : ZMod 2) = 0 := by decide
      rw [h2, zero_mul]
    have := (ZMod.natCast_zmod_eq_zero_iff_dvd _ 2).mp hcast
    exact this
  obtain ⟨c, hc⟩ := hdvd
  omega

theorem getD_mem (poly : List (ℚ × ℚ)) (i : ℕ) (h : i < poly.length) :
    poly.getD i (0, 0) ∈ poly := by
  rw [List.getD_eq_getElem poly (0, 0) h]
  exact List.getElem_mem h

theorem jdx_lt (n i : ℕ) (h : i < n) : jdx n i < n := by
  unfold jdx
  split <;> omega

/-- A point strictly outside the bounding box of the vertex list is
classified outside. -/
theorem pointInPolygon_outside (x y : ℚ) (poly : List (ℚ × ℚ))
    (h : (∀ v ∈ poly, x < v.1) ∨ (∀ v ∈ poly, v.1 < x) ∨
      (∀ v ∈ poly, y < v.2) ∨ (∀ v ∈ poly, v.2 < y)) :
    pointInPolygon (x, y) poly = false := by
  rw [pointInPolygon_parity]
  rcases h with hL | hR | hB | hA
  · have hcc : countCrossings (x, y) poly =
        (List.range poly.length).countP
          (fun i => decide ((poly.getD i (0, 0)).2 > y) !=
            decide ((poly.getD (jdx poly.length i) (0, 0)).2 > y)) := by
      unfold countCrossings
      refine List.countP_congr ?_
      intro a ha
      have ha' : a < poly.length := List.mem_range.mp ha
      have hcb := crossB_eq_straddle_of_left x y _ _
        (hL _ (getD_mem poly a ha'))
        (hL _ (getD_mem poly (jdx poly.length a) (jdx_lt _ _ ha')))
      exact iff_of_eq (congrArg (· = true) hcb)
    rw [hcc, straddle_count_even]
    simp
  · have hcc : countCrossings (x, y) poly = 0 := by
      unfold countCrossings
      rw [List.countP_eq_zero]
      intro a ha
      have ha' : a < poly.length := List.mem_range.mp ha
      simp only [Bool.not_eq_true]
      exact crossB_false_of_right x y _ _
        (le_of_lt (hR _ (getD_mem poly a ha')))
        (le_of_lt (hR _ (getD_mem poly (jdx poly.length a) (jdx_lt _ _ ha'))))
    rw [hcc]
    simp
  · have hcc : countCrossings (x, y) poly = 0 := by
      unfold countCrossings
      rw [List.countP_eq_zero]
      intro a ha
      have ha' : a < poly.length := List.mem_range.mp ha
      simp only [Bool.not_eq_true]
      exact crossB_false_of_below x y _ _
        (hB _ (getD_mem poly a ha'))
        (hB _ (getD_mem poly (jdx poly.length a) (jdx_lt _ _ ha')))
    rw [hcc]
    simp
  · have hcc : countCrossings (x, y) poly = 0 := by
      unfold countCrossings
      rw [List.countP_eq_zero]
      intro a ha
      have ha' : a < poly.length := List.mem_range.mp ha
      simp only [Bool.not_eq_true]
      exact crossB_false_of_above x y _ _
        (le_of_lt (hA _ (getD_mem poly a ha')))
        (le_of_lt (hA _ (getD_mem poly (jdx poly.length a) (jdx_lt _ _ ha'))))
    rw [hcc]
    simp

/-! ## Claim theorems -/

/-- C1: `pointInPolygon` implements the even–odd ray-casting containment
test: it treats the last vertex as connected back to the first, counts the
horizontal-ray crossings, and returns true exactly when that count is odd;
on the square [(0,0),(0,4),(4,4),(4,0)] the point (2,2) is inside and
(5,5) is outside; and for any polygon (in particular any convex one) a
point strictly outside the vertex bounding box is classified outside. -/
theorem C1_pointInPolygon_ray_casting :
    (∀ (p : ℚ × ℚ) (poly : List (ℚ × ℚ)),
      pointInPolygon p poly = decide (countCrossings p poly % 2 = 1)) ∧
    pointInPolygon (2, 2) [(0, 0), (0, 4), (4, 4), (4, 0)] = true ∧
    pointInPolygon (5, 5) [(0, 0), (0, 4), (4, 4), (4, 0)] = false ∧
    (∀ (x y : ℚ) (poly : List (ℚ × ℚ)),
      ((∀ v ∈ poly, x < v.1) ∨ (∀ v ∈ poly, v.1 < x) ∨
        (∀ v ∈ poly, y < v.2) ∨ (∀ v ∈ poly, v.2 < y)) →
      pointInPolygon (x, y) poly = false) := by
  refine ⟨pointInPolygon_parity, ?_, ?_, pointInPolygon_outside⟩
  · have h4 : List.range 4 = [0, 1, 2, 3] := by decide
    simp only [pointInPolygon, List.length_cons, List.length_nil, h4, List.foldl ]
    norm_num [pipStep, crossB, jdx]
  · have h4 : List.range 4 = [0, 1, 2, 3] := by decide
    simp only [pointInPolygon, List.length_cons, List.length_nil, h4, List.foldl ]
    norm_num [pipStep, crossB, jdx]

/-- Witness for C1: a point to the right of every vertex of a concrete
convex polygon is outside. -/
theorem C1_pointInPolygon_ray_casting_witness :
    pointInPolygon (5, 0) [(0, 0), (2, 0), (1, 2)] = false :=
  C1_pointInPolygon_ray_casting.2.2.2 5 0 [(0, 0), (2, 0), (1, 2)]
    (Or.inr (Or.inl (by intro v hv; fin_cases hv <;> norm_num)))

/-- C9: the crossing condition is false on every horizontal edge (equal
edge ordinates), so the edge-interpolation division is short-circuited
there (a true crossing condition forces a nonzero denominator) and a
horizontal edge never toggles the inside flag. -/
theorem C9_horizontal_edges_never_toggle :
    ∀ (x y xi yi xj yj : ℚ),
      (yi = yj → crossB x y (xi, yi) (xj, yj) = false) ∧
      (crossB x y (xi, yi) (xj, yj) = true → yj - yi ≠ 0) ∧
      (∀ inside : Bool,
        yi = yj → pipStep x y (xi, yi) (xj, yj) inside = inside) := by
  intro x y xi yi xj yj
  have hfalse : yi = yj → crossB x y (xi, yi) (xj, yj) = false := by
    intro h
    subst h
    simp [crossB]
  refine ⟨hfalse, ?_, ?_⟩
  · intro hc hzero
    have heq : yi = yj := by linarith [sub_eq_zero.mp hzero]
    rw [hfalse heq] at hc
    exact Bool.false_ne_true hc
  · intro inside h
    simp [pipStep, hfalse h]

/-- Witness for C9: a concrete horizontal edge neither crosses nor
toggles. -/
theorem C9_horizontal_edges_never_toggle_witness :
    crossB 0 0 (1, 3) (7, 3) = false ∧ pipStep 0 0 (1, 3) (7, 3) true = true :=
  ⟨(C9_horizontal_edges_never_toggle 0 0 1 3 7 3).1 rfl,
    (C9_horizontal_edges_never_toggle 0 0 1 3 7 3).2.2 true rfl⟩

/-- C2: `sortByCategory` changes at most one bucket and dispatches every
tag set by the full first-match priority order supermarket > pharmacy >
restaurant > fastfood > hotel, appending exactly one canonical label to
the bucketed POI: each rule fires exactly when its tag is present and all
higher-priority tags are absent (so a POI tagged both supermarket and
restaurant lands only in `supermarket`, a POI tagged only
`catering.fast_food` lands only in `fastfood`), and a POI matching none
of the five tags leaves the buckets unchanged. -/
theorem C2_sortByCategory_first_match :
    ∀ (poi : Poi) (cats : List String) (b : SortedPOI),
      changedBuckets b (sortByCategory poi cats b) ≤ 1 ∧
      (cats.contains "commercial.supermarket" = true →
        sortByCategory poi cats b =
          { b with supermarket := b.supermarket ++ [withLabel poi "supermarket"] }) ∧
      (cats.contains "commercial.supermarket" = false →
        cats.contains "healthcare.pharmacy" = true →
        sortByCategory poi cats b =
          { b with pharmacy := b.pharmacy ++ [withLabel poi "pharmacy"] }) ∧
      (cats.contains "commercial.supermarket" = false →
        cats.contains "healthcare.pharmacy" = false →
        cats.contains "catering.restaurant" = true →
        sortByCategory poi cats b =
          { b with restaurant := b.restaurant ++ [withLabel poi "restaurant"] }) ∧
      (cats.contains "commercial.supermarket" = false →
        cats.contains "healthcare.pharmacy" = false →
        cats.contains "catering.restaurant" = false →
        cats.contains "catering.fast_food" = true →
        sortByCategory poi cats b =
          { b with fastfood := b.fastfood ++ [withLabel poi "fastfood"] }) ∧
      (cats.contains "commercial.supermarket" = false →
        cats.contains "healthcare.pharmacy" = false →
        cats.contains "catering.restaurant" = false →
        cats.contains "catering.fast_food" = false →
        cats.contains "accommodation.hotel" = true →
        sortByCategory poi cats b =
          { b with hotel := b.hotel ++ [withLabel poi "hotel"] }) ∧
      ((cats.contains "commercial.supermarket" = false ∧
          cats.contains "healthcare.pharmacy" = false ∧
          cats.contains "catering.restaurant" = false ∧
          cats.contains "catering.fast_food" = false ∧
          cats.contains "accommodation.hotel" = false) →
        sortByCategory poi cats b = b) ∧
      sortByCategory poi ["commercial.supermarket", "catering.restaurant"] b =
        { b with supermarket := b.supermarket ++ [withLabel poi "supermarket"] } ∧
      sortByCategory poi ["catering.fast_food"] b =
        { b with fastfood := b.fastfood ++ [withLabel poi "fastfood"] } := by
  intro poi cats b
  refine ⟨?_, ?_, ?_, ?_, ?_, ?_, ?_, ?_, ?_⟩
  · unfold sortByCategory
    split_ifs <;> simp [changedBuckets]
  · intro h1
    have h1' : "commercial.supermarket" ∈ cats := by simpa using h1
    simp [sortByCategory, h1']
  · intro h1 h2
    have h1' : "commercial.supermarket" ∉ cats := by simpa using h1
    have h2' : "healthcare.pharmacy" ∈ cats := by simpa using h2
    simp [sortByCategory, h1', h2']
  · intro h1 h2 h3
    have h1' : "commercial.supermarket" ∉ cats := by simpa using h1
    have h2' : "healthcare.pharmacy" ∉ cats := by simpa using h2
    have h3' : "catering.restaurant" ∈ cats := by simpa using h3
    simp [sortByCategory, h1', h2', h3']
  · intro h1 h2 h3 h4
    have h1' : "commercial.supermarket" ∉ cats := by simpa using h1
    have h2' : "healthcare.pharmacy" ∉ cats := by simpa using h2
    have h3' : "catering.restaurant" ∉ cats := by simpa using h3
    have h4' : "catering.fast_food" ∈ cats := by simpa using h4
    simp [sortByCategory, h1', h2', h3', h4']
  · intro h1 h2 h3 h4 h5
    have h1' : "commercial.supermarket" ∉ cats := by simpa using h1
    have h2' : "healthcare.pharmacy" ∉ cats := by simpa using h2
    have h3' : "catering.restaurant" ∉ cats := by simpa using h3
    have h4' : "catering.fast_food" ∉ cats := by simpa using h4
    have h5' : "accommodation.hotel" ∈ cats := by simpa using h5
    simp [sortByCategory, h1', h2', h3', h4', h5']
  · rintro ⟨h1, h2, h3, h4, h5⟩
    have h1' : "commercial.supermarket" ∉ cats := by simpa using h1
    have h2' : "healthcare.pharmacy" ∉ cats := by simpa using h2
    have h3' : "catering.restaurant" ∉ cats := by simpa using h3
    have h4' : "catering.fast_food" ∉ cats := by simpa using h4
    have h5' : "accommodation.hotel" ∉ cats := by simpa using h5
    simp [sortByCategory, h1', h2', h3', h4', h5']
  · have hc : "commercial.supermarket" ∈
        (["commercial.supermarket", "catering.restaurant"] : List String) := by decide
    simp [sortByCategory, hc]
  · have hc1 : (["catering.fast_food"] : List String).contains
        "commercial.supermarket" = false := by decide
    have hc2 : (["catering.fast_food"] : List String).contains
        "healthcare.pharmacy" = false := by decide
    have hc3 : (["catering.fast_food"] : List String).contains
        "catering.restaurant" = false := by decide
    have hc4 : (["catering.fast_food"] : List String).contains
        "catering.fast_food" = true := by decide
    simp [sortByCategory, hc1, hc2, hc3, hc4]

/-- Witness for C2: concrete dispatches — a pharmacy-and-restaurant POI
lands only in pharmacy (priority order below supermarket), and an
unmatched POI changes nothing. -/
theorem C2_sortByCategory_first_match_witness :
    sortByCategory ⟨(0, 0), []⟩ ["healthcare.pharmacy", "catering.restaurant"]
        emptySorted =
      { emptySorted with
        pharmacy := emptySorted.pharmacy ++ [withLabel ⟨(0, 0), []⟩ "pharmacy"] } ∧
    sortByCategory ⟨(0, 0), []⟩ ["leisure.park"] emptySorted = emptySorted :=
  ⟨(C2_sortByCategory_first_match ⟨(0, 0), []⟩
      ["healthcare.pharmacy", "catering.restaurant"] emptySorted).2.2.1
      (by decide) (by decide),
    (C2_sortByCategory_first_match ⟨(0, 0), []⟩ ["leisure.park"]
        emptySorted).2.2.2.2.2.2.1
      (by refine ⟨?_, ?_, ?_, ?_, ?_⟩ <;> decide)⟩

/-- C5: the quantization `roundCord` is deterministic and idempotent at
3 decimal places, coordinates with equal quantizations always produce the
same cache key, and 12.34567 rounds to 12.346. -/
theorem C5_roundCord_quantization :
    (∀ x : ℚ, roundCord x 3 = roundCord x 3) ∧
    (∀ x : ℚ, roundCord (roundCord x 3) 3 = roundCord x 3) ∧
    (∀ lat₁ lon₁ lat₂ lon₂ : ℚ,
      roundCord lat₁ 3 = roundCord lat₂ 3 → roundCord lon₁ 3 = roundCord lon₂ 3 →
      keyOf lat₁ lon₁ = keyOf lat₂ lon₂) ∧
    roundCord 12.34567 3 = 12.346 := by
  refine ⟨fun x => rfl, ?_, ?_, ?_⟩
  · intro x
    unfold roundCord
    rw [div_mul_cancel₀ _ (by norm_num : ((10 : ℚ) ^ 3) ≠ 0), round_intCast]
  · intro lat₁ lon₁ lat₂ lon₂ hlat hlon
    unfold keyOf
    rw [hlat, hlon]
  · norm_num [roundCord, round_eq]

/-- Witness for C5: two distinct precise coordinates sharing the
quantization share the cache key. -/
theorem C5_roundCord_quantization_witness :
    keyOf 12.34567 0 = keyOf 12.3456 0 :=
  C5_roundCord_quantization.2.2.1 12.34567 0 12.3456 0
    (by norm_num [roundCord, round_eq]) rfl

/-- C7: a failed isochrone call is fatal to the whole lookup —
`getNearbyPlaces` returns the single structured error object — and a
successful categorized result can only come from the complete pipeline
(provider features, isochrone polygon, filter, classify): no partial
results. -/
theorem C7_isochrone_failure_fatal :
    (∀ (geo : GeoData) (feats : List Poi) (msg : String),
      geo.features = some feats →
      getNearbyPlaces geo (.fail msg) =
        .isoError ("Error getting mb isochrone:" ++ msg)) ∧
    (∀ (geo : GeoData) (iso : IsoResult) (s : SortedPOI),
      getNearbyPlaces geo iso = .success s →
      ∃ (feats : List Poi) (polygon : List (ℚ × ℚ)),
        geo.features = some feats ∧ iso = .ok polygon ∧
        s = (feats.filter (fun poi => pointInPolygon poi.coords polygon)).foldl
              (fun acc poi => sortByCategory poi poi.categories acc) emptySorted) := by
  constructor
  · intro geo feats msg h
    simp [getNearbyPlaces, h]
  · intro geo iso s h
    cases hf : geo.features with
    | none => simp [getNearbyPlaces, hf] at h
    | some feats =>
      cases iso with
      | fail msg => simp [getNearbyPlaces, hf] at h
      | ok polygon =>
        refine ⟨feats, polygon, rfl, rfl, ?_⟩
        simp only [getNearbyPlaces, hf] at h
        exact (LookupResult.success.injEq _ _).mp h.symm ▸ rfl

/-- Witness for C7: a concrete failing isochrone call yields the error
object. -/
theorem C7_isochrone_failure_fatal_witness :
    getNearbyPlaces ⟨some [], none⟩ (.fail "timeout") =
      .isoError ("Error getting mb isochrone:" ++ "timeout") :=
  C7_isochrone_failure_fatal.1 ⟨some [], none⟩ [] "timeout" rfl

/-- C6 counterexample: a featureless provider body with no truthy `error`
field is not surfaced as an error — the route serves it as a 200 success
envelope. -/
theorem C6_counterexample :
    (handleNearby ⟨true, true, ⟨none, none⟩, .ok []⟩ 0 "client" 40 (-75)
        ⟨[], [], []⟩).1 =
      .ok (.env ⟨(40, -75), "client", .verbatim ⟨none, none⟩⟩) ∧
    codeOf (handleNearby ⟨true, true, ⟨none, none⟩, .ok []⟩ 0 "client" 40 (-75)
        ⟨[], [], []⟩).1 = none ∧
    statusOf (handleNearby ⟨true, true, ⟨none, none⟩, .ok []⟩ 0 "client" 40 (-75)
        ⟨[], [], []⟩).1 = 200 := by
  have h : handleNearby ⟨true, true, ⟨none, none⟩, .ok []⟩ 0 "client" 40 (-75)
      ⟨[], [], []⟩ =
      (.ok (.env ⟨(40, -75), "client", .verbatim ⟨none, none⟩⟩),
        ⟨aset [] (keyOf 40 (-75))
            (.env ⟨(40, -75), "client", .verbatim ⟨none, none⟩⟩, 0 + 60 * 60 * 6),
          aset [] "client" ⟨1, 0 + 60 * 60⟩,
          [] ++ [⟨⟨(40, -75), "client", .verbatim ⟨none, none⟩⟩, keyOf 40 (-75), 0,
            0 + 4 * 24 * 60 * 60⟩]⟩) := by
    simp [handleNearby, redisGet, alookup, mongoFind, freshPath,
      checkUniqueRequestLimit, quotaGet, incrementUniqueRequestCount,
      getNearbyPlaces, lookupErr]
  rw [h]
  refine ⟨rfl, rfl, rfl⟩

/-- C6 (amended): when the featureless provider body does carry a truthy
`error` field, `getNearbyPlaces` returns the body verbatim and the route
surfaces it as the distinct 500 `API_ERROR` response, distinguishable from
the quota denial and from the generic failure. -/
theorem C6_provider_exhaustion_surfaced :
    ∀ (o : Oracle) (now : ℕ) (ip : String) (lat lon : ℚ) (s : ServerState)
      (m : String),
      o.geo.features = none → o.geo.errorMsg = some m →
      redisGet s.redis (keyOf lat lon) now = none →
      (if o.mongoReadOk then mongoFind s.mongo (keyOf lat lon) else none) = none →
      checkUniqueRequestLimit s.quota ip now = true →
      getNearbyPlaces o.geo o.iso = .verbatim o.geo ∧
      (handleNearby o now ip lat lon s).1 = .apiError m ∧
      statusOf (handleNearby o now ip lat lon s).1 = 500 ∧
      codeOf (handleNearby o now ip lat lon s).1 = some "API_ERROR" ∧
      codeOf (handleNearby o now ip lat lon s).1 ≠ codeOf .quotaExceeded ∧
      codeOf (handleNearby o now ip lat lon s).1 ≠ codeOf .internalError := by
  intro o now ip lat lon s m hf herr hr hm hq
  have hlook : getNearbyPlaces o.geo o.iso = .verbatim o.geo := by
    simp [getNearbyPlaces, hf]
  have hmain : handleNearby o now ip lat lon s =
      (.apiError m,
        { s with quota := incrementUniqueRequestCount s.quota ip now }) := by
    rw [handle_miss o now ip lat lon s hr hm]
    simp [freshPath, hq, hlook, lookupErr, herr]
  rw [hmain]
  refine ⟨hlook, rfl, rfl, rfl, by simp [codeOf], by simp [codeOf]⟩

/-- Witness for C6 (amended): concrete exhaustion body with an error
field. -/
theorem C6_provider_exhaustion_surfaced_witness :
    (handleNearby ⟨true, true, ⟨none, some "Too Many Requests"⟩, .ok []⟩ 0 "client"
        40 (-75) ⟨[], [], []⟩).1 = .apiError "Too Many Requests" :=
  (C6_provider_exhaustion_surfaced ⟨true, true, ⟨none, some "Too Many Requests"⟩, .ok []⟩
      0 "client" 40 (-75) ⟨[], [], []⟩ "Too Many Requests"
      rfl rfl (by simp [redisGet, alookup]) (by simp [mongoFind])
      (by simp [checkUniqueRequestLimit, quotaGet, alookup])).2.1

/-- C10: `incrementUniqueRequestCount` sets the one-hour expiry only when
it creates the counter; an existing live counter is incremented with its
expiry unchanged, so the window is fixed by the first cache-missing
lookup. -/
theorem C10_quota_expiry_only_on_create :
    ∀ (q : List (String × QuotaEntry)) (ip : String) (now : ℕ),
      (quotaGet q ip now = none →
        alookup (incrementUniqueRequestCount q ip now) ip =
          some ⟨1, now + 60 * 60⟩) ∧
      (∀ e, quotaGet q ip now = some e →
        alookup (incrementUniqueRequestCount q ip now) ip =
          some ⟨e.count + 1, e.expiresAt⟩) := by
  intro q ip now
  constructor
  · intro h
    rw [increment_fresh q ip now h, alookup_aset_self]
  · intro e h
    rw [increment_existing q ip now e h, alookup_aset_self]

/-- Witness for C10: creating then incrementing a counter keeps the
original expiry. -/
theorem C10_quota_expiry_only_on_create_witness :
    alookup (incrementUniqueRequestCount [] "client" 100) "client" =
        some ⟨1, 100 + 60 * 60⟩ ∧
      alookup (incrementUniqueRequestCount [("client", ⟨1, 3700⟩)] "client" 200)
          "client" = some ⟨1 + 1, 3700⟩ :=
  ⟨(C10_quota_expiry_only_on_create [] "client" 100).1 (by simp [quotaGet, alookup]),
    (C10_quota_expiry_only_on_create [("client", ⟨1, 3700⟩)] "client" 200).2
      ⟨1, 3700⟩ (by simp [quotaGet, alookup])⟩

/-- C4: the read path returns a fast-tier hit immediately and unchanged —
with a response that does not depend on the durable tier at all — and on a
fast-tier miss with a durable hit it promotes the document into the fast
tier with the 6-hour expiry and returns it, after which a lookup of the
same quantized coordinate before that expiry is a fast-tier hit. -/
theorem C4_two_tier_read_path :
    ∀ (o : Oracle) (now : ℕ) (ip : String) (lat lon : ℚ) (s : ServerState),
      (∀ v, redisGet s.redis (keyOf lat lon) now = some v →
        handleNearby o now ip lat lon s = (.ok v, s) ∧
        (∀ m' : List MongoDoc,
          handleNearby o now ip lat lon { s with mongo := m' } =
            (.ok v, { s with mongo := m' }))) ∧
      (∀ d, redisGet s.redis (keyOf lat lon) now = none →
        o.mongoReadOk = true →
        mongoFind s.mongo (keyOf lat lon) = some d →
        handleNearby o now ip lat lon s =
          (.ok (.doc d),
            { s with
              redis := aset s.redis (keyOf lat lon) (.doc d, now + 60 * 60 * 6) }) ∧
        (∀ (o₂ : Oracle) (now₂ : ℕ) (ip₂ : String), now₂ < now + 60 * 60 * 6 →
          handleNearby o₂ now₂ ip₂ lat lon
              { s with
                redis := aset s.redis (keyOf lat lon) (.doc d, now + 60 * 60 * 6) } =
            (.ok (.doc d),
              { s with
                redis := aset s.redis (keyOf lat lon)
                  (.doc d, now + 60 * 60 * 6) }))) := by
  intro o now ip lat lon s
  constructor
  · intro v hv
    exact ⟨handle_redis_hit o now ip lat lon s v hv,
      fun m' => handle_redis_hit o now ip lat lon { s with mongo := m' } v hv⟩
  · intro d hr ho hm
    refine ⟨handle_mongo_hit o now ip lat lon s d hr ho hm, ?_⟩
    intro o₂ now₂ ip₂ hnow
    exact handle_redis_hit o₂ now₂ ip₂ lat lon _ (.doc d)
      (redisGet_aset_self s.redis (keyOf lat lon) (.doc d) _ now₂ hnow)

/-- Witness for C4: starting from an empty fast tier and a durable tier
holding the key, the first request promotes and the second hits the fast
tier. -/
theorem C4_two_tier_read_path_witness :
    handleNearby ⟨true, true, ⟨none, none⟩, .ok []⟩ 0 "a" 40 (-75)
        ⟨[], [], [⟨⟨(40, -75), "b", .success emptySorted⟩, keyOf 40 (-75), 0, 10⟩]⟩ =
      (.ok (.doc ⟨⟨(40, -75), "b", .success emptySorted⟩, keyOf 40 (-75), 0, 10⟩),
        ⟨aset [] (keyOf 40 (-75))
            (.doc ⟨⟨(40, -75), "b", .success emptySorted⟩, keyOf 40 (-75), 0, 10⟩,
              0 + 60 * 60 * 6),
          [], [⟨⟨(40, -75), "b", .success emptySorted⟩, keyOf 40 (-75), 0, 10⟩]⟩) :=
  ((C4_two_tier_read_path ⟨true, true, ⟨none, none⟩, .ok []⟩ 0 "a" 40 (-75)
      ⟨[], [], [⟨⟨(40, -75), "b", .success emptySorted⟩, keyOf 40 (-75), 0, 10⟩]⟩).2
    ⟨⟨(40, -75), "b", .success emptySorted⟩, keyOf 40 (-75), 0, 10⟩
    (by simp [redisGet, alookup]) rfl (by simp [mongoFind])).1

/-- Effect of flipping the durable-write flag in the cache-miss tail: the
response and the fast-tier write are identical, and with the flag off the
durable store is untouched. -/
theorem fresh_write_flag (o : Oracle) (now : ℕ) (ip : String) (lat lon : ℚ)
    (key : ℚ × ℚ) (s : ServerState) :
    (freshPath { o with mongoWriteOk := false } now ip lat lon key s).1 =
        (freshPath { o with mongoWriteOk := true } now ip lat lon key s).1 ∧
      (freshPath { o with mongoWriteOk := false } now ip lat lon key s).2.redis =
        (freshPath { o with mongoWriteOk := true } now ip lat lon key s).2.redis ∧
      (freshPath { o with mongoWriteOk := false } now ip lat lon key s).2.mongo =
        s.mongo := by
  by_cases hq : checkUniqueRequestLimit s.quota ip now
  · cases herr : lookupErr (getNearbyPlaces o.geo o.iso) <;>
      refine ⟨?_, ?_, ?_⟩ <;> simp [freshPath, hq, herr]
  · refine ⟨?_, ?_, ?_⟩ <;>
      simp [freshPath, hq]

/-- C8: durable-tier failures are absorbed — flipping the durable-write
flag never changes the response or the fast-tier state and a failed write
leaves the durable store untouched, while a failed durable read lets a
fast-tier miss proceed to the fresh-lookup path. -/
theorem C8_persistence_failures_absorbed :
    ∀ (o : Oracle) (now : ℕ) (ip : String) (lat lon : ℚ) (s : ServerState),
      ((handleNearby { o with mongoWriteOk := false } now ip lat lon s).1 =
        (handleNearby { o with mongoWriteOk := true } now ip lat lon s).1) ∧
      ((handleNearby { o with mongoWriteOk := false } now ip lat lon s).2.redis =
        (handleNearby { o with mongoWriteOk := true } now ip lat lon s).2.redis) ∧
      ((handleNearby { o with mongoWriteOk := false } now ip lat lon s).2.mongo =
        s.mongo) ∧
      (redisGet s.redis (keyOf lat lon) now = none →
        handleNearby { o with mongoReadOk := false } now ip lat lon s =
          freshPath { o with mongoReadOk := false } now ip lat lon
            (keyOf lat lon) s) ∧
      (redisGet s.redis (keyOf lat lon) now = none →
        (if o.mongoReadOk then mongoFind s.mongo (keyOf lat lon) else none) = none →
        checkUniqueRequestLimit s.quota ip now = true →
        lookupErr (getNearbyPlaces o.geo o.iso) = none →
        (handleNearby { o with mongoWriteOk := false } now ip lat lon s).1 =
          .ok (.env ⟨(lat, lon), ip, getNearbyPlaces o.geo o.iso⟩)) := by
  intro o now ip lat lon s
  have hread : ∀ b : Bool,
      ({ o with mongoWriteOk := b } : Oracle).mongoReadOk = o.mongoReadOk := by
    intro b
    rfl
  refine ⟨?_, ?_, ?_, ?_, ?_⟩
  · cases hr : redisGet s.redis (keyOf lat lon) now with
    | some v => simp [handleNearby, hr]
    | none =>
      cases hm : (if o.mongoReadOk then mongoFind s.mongo (keyOf lat lon) else none) with
      | some d => simp [handleNearby, hr, hread, hm]
      | none =>
        simp only [handleNearby, hr, hread, hm]
        exact (fresh_write_flag o now ip lat lon (keyOf lat lon) s).1
  · cases hr : redisGet s.redis (keyOf lat lon) now with
    | some v => simp [handleNearby, hr]
    | none =>
      cases hm : (if o.mongoReadOk then mongoFind s.mongo (keyOf lat lon) else none) with
      | some d => simp [handleNearby, hr, hread, hm]
      | none =>
        simp only [handleNearby, hr, hread, hm]
        exact (fresh_write_flag o now ip lat lon (keyOf lat lon) s).2.1
  · cases hr : redisGet s.redis (keyOf lat lon) now with
    | some v => simp [handleNearby, hr]
    | none =>
      cases hm : (if o.mongoReadOk then mongoFind s.mongo (keyOf lat lon) else none) with
      | some d => simp [handleNearby, hr, hread, hm]
      | none =>
        simp only [handleNearby, hr, hread, hm]
        exact (fresh_write_flag o now ip lat lon (keyOf lat lon) s).2.2
  · intro hr
    exact handle_miss _ now ip lat lon s hr (by simp)
  · intro hr hm hq herr
    rw [handle_miss { o with mongoWriteOk := false } now ip lat lon s hr hm]
    simp [freshPath, hq, herr]

/-- Witness for C8: with the durable read failing on a fast-tier miss, the
concrete request still reaches the fresh-lookup path and is served. -/
theorem C8_persistence_failures_absorbed_witness :
    handleNearby ⟨false, true, ⟨none, some "err"⟩, .ok []⟩ 0 "client" 40 (-75)
        ⟨[], [], []⟩ =
      freshPath ⟨false, true, ⟨none, some "err"⟩, .ok []⟩ 0 "client" 40 (-75)
        (keyOf 40 (-75)) ⟨[], [], []⟩ :=
  (C8_persistence_failures_absorbed ⟨false, true, ⟨none, some "err"⟩, .ok []⟩ 0
      "client" 40 (-75) ⟨[], [], []⟩).2.2.2.1 (by simp [redisGet, alookup])

/-- A cache-missing, quota-admitted request increments the quota counter,
is not denied, and leaves every other key's cache entries unchanged. -/
theorem handle_miss_admitted (o : Oracle) (now : ℕ) (ip : String) (lat lon : ℚ)
    (s : ServerState)
    (hr : alookup s.redis (keyOf lat lon) = none)
    (hm : mongoFind s.mongo (keyOf lat lon) = none)
    (hq : checkUniqueRequestLimit s.quota ip now = true) :
    (handleNearby o now ip lat lon s).2.quota =
        incrementUniqueRequestCount s.quota ip now ∧
      (handleNearby o now ip lat lon s).1 ≠ .quotaExceeded ∧
      (∀ k', k' ≠ keyOf lat lon →
        alookup (handleNearby o now ip lat lon s).2.redis k' = alookup s.redis k') ∧
      (∀ k', k' ≠ keyOf lat lon →
        mongoFind (handleNearby o now ip lat lon s).2.mongo k' =
          mongoFind s.mongo k') := by
  have hmiss : handleNearby o now ip lat lon s =
      freshPath o now ip lat lon (keyOf lat lon) s :=
    handle_miss o now ip lat lon s (redisGet_none_of_alookup_none _ _ _ hr)
      (by cases ho : o.mongoReadOk <;> simp [hm])
  rw [hmiss]
  exact fresh_admitted_effects o now ip lat lon (keyOf lat lon) s hq

/-- A cache-missing request from a client at its quota limit is denied with
the 429 response and leaves the state unchanged. -/
theorem handle_miss_denied (o : Oracle) (now : ℕ) (ip : String) (lat lon : ℚ)
    (s : ServerState)
    (hr : alookup s.redis (keyOf lat lon) = none)
    (hm : mongoFind s.mongo (keyOf lat lon) = none)
    (hq : checkUniqueRequestLimit s.quota ip now = false) :
    handleNearby o now ip lat lon s = (.quotaExceeded, s) := by
  have hmiss : handleNearby o now ip lat lon s =
      freshPath o now ip lat lon (keyOf lat lon) s :=
    handle_miss o now ip lat lon s (redisGet_none_of_alookup_none _ _ _ hr)
      (by cases ho : o.mongoReadOk <;> simp [hm])
  rw [hmiss]
  exact fresh_denied o now ip lat lon (keyOf lat lon) s hq

/-- C3: six consecutive cache-missing lookups from one identity within one
hour leave the first five admitted and deny the sixth with the 429 quota
response, while a request whose quantized coordinate is in either cache
tier succeeds regardless of the quota counter and never touches it. -/
theorem C3_unique_request_quota :
    (∀ (s0 : ServerState) (ip : String)
      (lat1 lon1 lat2 lon2 lat3 lon3 lat4 lon4 lat5 lon5 lat6 lon6 : ℚ)
      (t1 t2 t3 t4 t5 t6 : ℕ) (o1 o2 o3 o4 o5 o6 : Oracle),
      List.Pairwise (fun a b => a ≠ b)
        [keyOf lat1 lon1, keyOf lat2 lon2, keyOf lat3 lon3, keyOf lat4 lon4,
          keyOf lat5 lon5, keyOf lat6 lon6] →
      (∀ k ∈ [keyOf lat1 lon1, keyOf lat2 lon2, keyOf lat3 lon3, keyOf lat4 lon4,
          keyOf lat5 lon5, keyOf lat6 lon6],
        alookup s0.redis k = none ∧ mongoFind s0.mongo k = none) →
      alookup s0.quota ip = none →
      t1 ≤ t2 → t2 ≤ t3 → t3 ≤ t4 → t4 ≤ t5 → t5 ≤ t6 → t6 < t1 + 60 * 60 →
      let r1 := handleNearby o1 t1 ip lat1 lon1 s0
      let r2 := handleNearby o2 t2 ip lat2 lon2 r1.2
      let r3 := handleNearby o3 t3 ip lat3 lon3 r2.2
      let r4 := handleNearby o4 t4 ip lat4 lon4 r3.2
      let r5 := handleNearby o5 t5 ip lat5 lon5 r4.2
      let r6 := handleNearby o6 t6 ip lat6 lon6 r5.2
      r1.1 ≠ .quotaExceeded ∧ r2.1 ≠ .quotaExceeded ∧ r3.1 ≠ .quotaExceeded ∧
        r4.1 ≠ .quotaExceeded ∧ r5.1 ≠ .quotaExceeded ∧
        r6 = (.quotaExceeded, r5.2)) ∧
    (∀ (o : Oracle) (now : ℕ) (ip : String) (lat lon : ℚ) (s : ServerState)
      (v : CachedVal),
      redisGet s.redis (keyOf lat lon) now = some v →
      handleNearby o now ip lat lon s = (.ok v, s)) ∧
    (∀ (o : Oracle) (now : ℕ) (ip : String) (lat lon : ℚ) (s : ServerState)
      (d : MongoDoc),
      redisGet s.redis (keyOf lat lon) now = none → o.mongoReadOk = true →
      mongoFind s.mongo (keyOf lat lon) = some d →
      (handleNearby o now ip lat lon s).1 = .ok (.doc d) ∧
        (handleNearby o now ip lat lon s).2.quota = s.quota) ∧
    statusOf .quotaExceeded = 429 ∧
    codeOf .quotaExceeded = some "UNIQUE_REQUESTS_LIMIT_EXCEEDED" := by
  refine ⟨?_, ?_, ?_, rfl, rfl⟩
  · intro s0 ip lat1 lon1 lat2 lon2 lat3 lon3 lat4 lon4 lat5 lon5 lat6 lon6
      t1 t2 t3 t4 t5 t6 o1 o2 o3 o4 o5 o6 hpw hfresh hq0 h12 h23 h34 h45 h56 hwin
    simp only [List.pairwise_cons, List.mem_cons, List.not_mem_nil,
      List.mem_singleton, forall_eq_or_imp, forall_eq, List.Pairwise.nil,
      or_false, false_or, and_true] at hpw
    obtain ⟨⟨hk12, hk13, hk14, hk15, hk16⟩, ⟨hk23, hk24, hk25, hk26⟩,
      ⟨hk34, hk35, hk36⟩, ⟨hk45, hk46⟩, hk56, -⟩ := hpw
    have hf1 := hfresh (keyOf lat1 lon1) (by simp)
    have hf2 := hfresh (keyOf lat2 lon2) (by simp)
    have hf3 := hfresh (keyOf lat3 lon3) (by simp)
    have hf4 := hfresh (keyOf lat4 lon4) (by simp)
    have hf5 := hfresh (keyOf lat5 lon5) (by simp)
    have hf6 := hfresh (keyOf lat6 lon6) (by simp)
    intro r1 r2 r3 r4 r5 r6
    -- step 1
    have hq1get : quotaGet s0.quota ip t1 = none :=
      quotaGet_none_of_alookup_none _ _ _ hq0
    have hchk1 : checkUniqueRequestLimit s0.quota ip t1 = true :=
      check_allows_none _ _ _ hq1get
    obtain ⟨hq1, hne1, hpr1, hpm1⟩ :=
      handle_miss_admitted o1 t1 ip lat1 lon1 s0 hf1.1 hf1.2 hchk1
    have hquota1 : alookup r1.2.quota ip = some ⟨1, t1 + 60 * 60⟩ := by
      rw [show r1.2.quota = (handleNearby o1 t1 ip lat1 lon1 s0).2.quota from rfl,
        hq1, increment_fresh _ _ _ hq1get, alookup_aset_self]
    -- step 2
    have hr2 : alookup r1.2.redis (keyOf lat2 lon2) = none := by
      rw [show r1.2.redis = (handleNearby o1 t1 ip lat1 lon1 s0).2.redis from rfl,
        hpr1 _ (Ne.symm hk12)]
      exact hf2.1
    have hm2 : mongoFind r1.2.mongo (keyOf lat2 lon2) = none := by
      rw [show r1.2.mongo = (handleNearby o1 t1 ip lat1 lon1 s0).2.mongo from rfl,
        hpm1 _ (Ne.symm hk12)]
      exact hf2.2
    have hq2get : quotaGet r1.2.quota ip t2 = some ⟨1, t1 + 60 * 60⟩ := by
      have ht : t2 < t1 + 60 * 60 := by omega
      simp [quotaGet, hquota1, ht]
    have hchk2 : checkUniqueRequestLimit r1.2.quota ip t2 = true :=
      check_allows_small _ _ _ _ hq2get (by norm_num)
    obtain ⟨hq2, hne2, hpr2, hpm2⟩ :=
      handle_miss_admitted o2 t2 ip lat2 lon2 r1.2 hr2 hm2 hchk2
    have hquota2 : alookup r2.2.quota ip = some ⟨2, t1 + 60 * 60⟩ := by
      rw [show r2.2.quota = (handleNearby o2 t2 ip lat2 lon2 r1.2).2.quota from rfl,
        hq2, increment_existing _ _ _ _ hq2get, alookup_aset_self]
    -- step 3
    have hr3 : alookup r2.2.redis (keyOf lat3 lon3) = none := by
      rw [show r2.2.redis = (handleNearby o2 t2 ip lat2 lon2 r1.2).2.redis from rfl,
        hpr2 _ (Ne.symm hk23),
        show r1.2.redis = (handleNearby o1 t1 ip lat1 lon1 s0).2.redis from rfl,
        hpr1 _ (Ne.symm hk13)]
      exact hf3.1
    have hm3 : mongoFind r2.2.mongo (keyOf lat3 lon3) = none := by
      rw [show r2.2.mongo = (handleNearby o2 t2 ip lat2 lon2 r1.2).2.mongo from rfl,
        hpm2 _ (Ne.symm hk23),
        show r1.2.mongo = (handleNearby o1 t1 ip lat1 lon1 s0).2.mongo from rfl,
        hpm1 _ (Ne.symm hk13)]
      exact hf3.2
    have hq3get : quotaGet r2.2.quota ip t3 = some ⟨2, t1 + 60 * 60⟩ := by
      have ht : t3 < t1 + 60 * 60 := by omega
      simp [quotaGet, hquota2, ht]
    have hchk3 : checkUniqueRequestLimit r2.2.quota ip t3 = true :=
      check_allows_small _ _ _ _ hq3get (by norm_num)
    obtain ⟨hq3, hne3, hpr3, hpm3⟩ :=
      handle_miss_admitted o3 t3 ip lat3 lon3 r2.2 hr3 hm3 hchk3
    have hquota3 : alookup r3.2.quota ip = some ⟨3, t1 + 60 * 60⟩ := by
      rw [show r3.2.quota = (handleNearby o3 t3 ip lat3 lon3 r2.2).2.quota from rfl,
        hq3, increment_existing _ _ _ _ hq3get, alookup_aset_self]
    -- step 4
    have hr4 : alookup r3.2.redis (keyOf lat4 lon4) = none := by
      rw [show r3.2.redis = (handleNearby o3 t3 ip lat3 lon3 r2.2).2.redis from rfl,
        hpr3 _ (Ne.symm hk34),
        show r2.2.redis = (handleNearby o2 t2 ip lat2 lon2 r1.2).2.redis from rfl,
        hpr2 _ (Ne.symm hk24),
        show r1.2.redis = (handleNearby o1 t1 ip lat1 lon1 s0).2.redis from rfl,
        hpr1 _ (Ne.symm hk14)]
      exact hf4.1
    have hm4 : mongoFind r3.2.mongo (keyOf lat4 lon4) = none := by
      rw [show r3.2.mongo = (handleNearby o3 t3 ip lat3 lon3 r2.2).2.mongo from rfl,
        hpm3 _ (Ne.symm hk34),
        show r2.2.mongo = (handleNearby o2 t2 ip lat2 lon2 r1.2).2.mongo from rfl,
        hpm2 _ (Ne.symm hk24),
        show r1.2.mongo = (handleNearby o1 t1 ip lat1 lon1 s0).2.mongo from rfl,
        hpm1 _ (Ne.symm hk14)]
      exact hf4.2
    have hq4get : quotaGet r3.2.quota ip t4 = some ⟨3, t1 + 60 * 60⟩ := by
      have ht : t4 < t1 + 60 * 60 := by omega
      simp [quotaGet, hquota3, ht]
    have hchk4 : checkUniqueRequestLimit r3.2.quota ip t4 = true :=
      check_allows_small _ _ _ _ hq4get (by norm_num)
    obtain ⟨hq4, hne4, hpr4, hpm4⟩ :=
      handle_miss_admitted o4 t4 ip lat4 lon4 r3.2 hr4 hm4 hchk4
    have hquota4 : alookup r4.2.quota ip = some ⟨4, t1 + 60 * 60⟩ := by
      rw [show r4.2.quota = (handleNearby o4 t4 ip lat4 lon4 r3.2).2.quota from rfl,
        hq4, increment_existing _ _ _ _ hq4get, alookup_aset_self]
    -- step 5
    have hr5 : alookup r4.2.redis (keyOf lat5 lon5) = none := by
      rw [show r4.2.redis = (handleNearby o4 t4 ip lat4 lon4 r3.2).2.redis from rfl,
        hpr4 _ (Ne.symm hk45),
        show r3.2.redis = (handleNearby o3 t3 ip lat3 lon3 r2.2).2.redis from rfl,
        hpr3 _ (Ne.symm hk35),
        show r2.2.redis = (handleNearby o2 t2 ip lat2 lon2 r1.2).2.redis from rfl,
        hpr2 _ (Ne.symm hk25),
        show r1.2.redis = (handleNearby o1 t1 ip lat1 lon1 s0).2.redis from rfl,
        hpr1 _ (Ne.symm hk15)]
      exact hf5.1
    have hm5 : mongoFind r4.2.mongo (keyOf lat5 lon5) = none := by
      rw [show r4.2.mongo = (handleNearby o4 t4 ip lat4 lon4 r3.2).2.mongo from rfl,
        hpm4 _ (Ne.symm hk45),
        show r3.2.mongo = (handleNearby o3 t3 ip lat3 lon3 r2.2).2.mongo from rfl,
        hpm3 _ (Ne.symm hk35),
        show r2.2.mongo = (handleNearby o2 t2 ip lat2 lon2 r1.2).2.mongo from rfl,
        hpm2 _ (Ne.symm hk25),
        show r1.2.mongo = (handleNearby o1 t1 ip lat1 lon1 s0).2.mongo from rfl,
        hpm1 _ (Ne.symm hk15)]
      exact hf5.2
    have hq5get : quotaGet r4.2.quota ip t5 = some ⟨4, t1 + 60 * 60⟩ := by
      have ht : t5 < t1 + 60 * 60 := by omega
      simp [quotaGet, hquota4, ht]
    have hchk5 : checkUniqueRequestLimit r4.2.quota ip t5 = true :=
      check_allows_small _ _ _ _ hq5get (by norm_num)
    obtain ⟨hq5, hne5, hpr5, hpm5⟩ :=
      handle_miss_admitted o5 t5 ip lat5 lon5 r4.2 hr5 hm5 hchk5
    have hquota5 : alookup r5.2.quota ip = some ⟨5, t1 + 60 * 60⟩ := by
      rw [show r5.2.quota = (handleNearby o5 t5 ip lat5 lon5 r4.2).2.quota from rfl,
        hq5, increment_existing _ _ _ _ hq5get, alookup_aset_self]
    -- step 6: denied
    have hr6 : alookup r5.2.redis (keyOf lat6 lon6) = none := by
      rw [show r5.2.redis = (handleNearby o5 t5 ip lat5 lon5 r4.2).2.redis from rfl,
        hpr5 _ (Ne.symm hk56),
        show r4.2.redis = (handleNearby o4 t4 ip lat4 lon4 r3.2).2.redis from rfl,
        hpr4 _ (Ne.symm hk46),
        show r3.2.redis = (handleNearby o3 t3 ip lat3 lon3 r2.2).2.redis from rfl,
        hpr3 _ (Ne.symm hk36),
        show r2.2.redis = (handleNearby o2 t2 ip lat2 lon2 r1.2).2.redis from rfl,
        hpr2 _ (Ne.symm hk26),
        show r1.2.redis = (handleNearby o1 t1 ip lat1 lon1 s0).2.redis from rfl,
        hpr1 _ (Ne.symm hk16)]
      exact hf6.1
    have hm6 : mongoFind r5.2.mongo (keyOf lat6 lon6) = none := by
      rw [show r5.2.mongo = (handleNearby o5 t5 ip lat5 lon5 r4.2).2.mongo from rfl,
        hpm5 _ (Ne.symm hk56),
        show r4.2.mongo = (handleNearby o4 t4 ip lat4 lon4 r3.2).2.mongo from rfl,
        hpm4 _ (Ne.symm hk46),
        show r3.2.mongo = (handleNearby o3 t3 ip lat3 lon3 r2.2).2.mongo from rfl,
        hpm3 _ (Ne.symm hk36),
        show r2.2.mongo = (handleNearby o2 t2 ip lat2 lon2 r1.2).2.mongo from rfl,
        hpm2 _ (Ne.symm hk26),
        show r1.2.mongo = (handleNearby o1 t1 ip lat1 lon1 s0).2.mongo from rfl,
        hpm1 _ (Ne.symm hk16)]
      exact hf6.2
    have hq6get : quotaGet r5.2.quota ip t6 = some ⟨5, t1 + 60 * 60⟩ := by
      have ht : t6 < t1 + 60 * 60 := by omega
      simp [quotaGet, hquota5, ht]
    have hchk6 : checkUniqueRequestLimit r5.2.quota ip t6 = false :=
      check_denies _ _ _ _ hq6get (by norm_num)
    exact ⟨hne1, hne2, hne3, hne4, hne5,
      handle_miss_denied o6 t6 ip lat6 lon6 r5.2 hr6 hm6 hchk6⟩
  · intro o now ip lat lon s v hv
    exact handle_redis_hit o now ip lat lon s v hv
  · intro o now ip lat lon s d hr ho hm
    rw [handle_mongo_hit o now ip lat lon s d hr ho hm]
    exact ⟨rfl, rfl⟩

/-- Witness for C3: six cache-missing requests from "c" at times 1–6 on six
distinct coordinates, starting from empty stores; the sixth is denied. -/
theorem C3_unique_request_quota_witness :
    (let r1 := handleNearby ⟨true, true, ⟨none, some "e"⟩, .ok []⟩ 1 "c" 1 0
        ⟨[], [], []⟩
     let r2 := handleNearby ⟨true, true, ⟨none, some "e"⟩, .ok []⟩ 2 "c" 2 0 r1.2
     let r3 := handleNearby ⟨true, true, ⟨none, some "e"⟩, .ok []⟩ 3 "c" 3 0 r2.2
     let r4 := handleNearby ⟨true, true, ⟨none, some "e"⟩, .ok []⟩ 4 "c" 4 0 r3.2
     let r5 := handleNearby ⟨true, true, ⟨none, some "e"⟩, .ok []⟩ 5 "c" 5 0 r4.2
     let r6 := handleNearby ⟨true, true, ⟨none, some "e"⟩, .ok []⟩ 6 "c" 6 0 r5.2
     r1.1 ≠ .quotaExceeded ∧ r2.1 ≠ .quotaExceeded ∧ r3.1 ≠ .quotaExceeded ∧
       r4.1 ≠ .quotaExceeded ∧ r5.1 ≠ .quotaExceeded ∧
       r6 = (.quotaExceeded, r5.2)) := by
  have hkeys : ∀ x : ℚ, keyOf x 0 = (roundCord x 3, 0) := by
    intro x
    unfold keyOf roundCord
    norm_num [round_eq]
  have hround : ∀ n : ℤ, roundCord (n : ℚ) 3 = (n : ℚ) := by
    intro n
    unfold roundCord
    rw [show ((n : ℚ) * 10 ^ 3) = ((n * 10 ^ 3 : ℤ) : ℚ) by push_cast; ring,
      round_intCast]
    push_cast
    ring
  have hpw : List.Pairwise (fun a b => a ≠ b)
      [keyOf 1 0, keyOf 2 0, keyOf 3 0, keyOf (4 : ℚ) 0, keyOf (5 : ℚ) 0,
        keyOf (6 : ℚ) 0] := by
    have h1 : keyOf (1 : ℚ) 0 = ((1 : ℚ), (0 : ℚ)) := by
      rw [hkeys, show ((1 : ℚ)) = ((1 : ℤ) : ℚ) by norm_num, hround]
    have h2 : keyOf (2 : ℚ) 0 = ((2 : ℚ), (0 : ℚ)) := by
      rw [hkeys, show ((2 : ℚ)) = ((2 : ℤ) : ℚ) by norm_num, hround]
    have h3 : keyOf (3 : ℚ) 0 = ((3 : ℚ), (0 : ℚ)) := by
      rw [hkeys, show ((3 : ℚ)) = ((3 : ℤ) : ℚ) by norm_num, hround]
    have h4 : keyOf (4 : ℚ) 0 = ((4 : ℚ), (0 : ℚ)) := by
      rw [hkeys, show ((4 : ℚ)) = ((4 : ℤ) : ℚ) by norm_num, hround]
    have h5 : keyOf (5 : ℚ) 0 = ((5 : ℚ), (0 : ℚ)) := by
      rw [hkeys, show ((5 : ℚ)) = ((5 : ℤ) : ℚ) by norm_num, hround]
    have h6 : keyOf (6 : ℚ) 0 = ((6 : ℚ), (0 : ℚ)) := by
      rw [hkeys, show ((6 : ℚ)) = ((6 : ℤ) : ℚ) by norm_num, hround]
    rw [h1, h2, h3, h4, h5, h6]
    refine List.Pairwise.cons (fun a ha => ?_) (List.Pairwise.cons (fun a ha => ?_)
      (List.Pairwise.cons (fun a ha => ?_) (List.Pairwise.cons (fun a ha => ?_)
        (List.Pairwise.cons (fun a ha => ?_) (List.pairwise_singleton _ _)))))
    all_goals fin_cases ha <;> (intro h; rw [Prod.ext_iff] at h; norm_num at h)
  exact C3_unique_request_quota.1 ⟨[], [], []⟩ "c" 1 0 2 0 3 0 4 0 5 0 6 0
    1 2 3 4 5 6
    ⟨true, true, ⟨none, some "e"⟩, .ok []⟩ ⟨true, true, ⟨none, some "e"⟩, .ok []⟩
    ⟨true, true, ⟨none, some "e"⟩, .ok []⟩ ⟨true, true, ⟨none, some "e"⟩, .ok []⟩
    ⟨true, true, ⟨none, some "e"⟩, .ok []⟩ ⟨true, true, ⟨none, some "e"⟩, .ok []⟩
    hpw (fun k _ => ⟨rfl, rfl⟩) rfl (by omega) (by omega) (by omega) (by omega)
    (by omega) (by omega)

end Mapsy

